import Mathlib

/-!
Verification of the Sampling Wizard repository.

The development shallowly embeds the data model of the wizard
(frontend/src/api/catalog.ts), the wafer-grid generator
(components/WaferMap sources), the wizard state reducer
(frontend/src/context/WizardContext.tsx), the catalog API client
(frontend/src/api/catalog.ts), and the backend sampling pipeline.
The backend Python engines themselves are not part of the exported
sources; they are modelled from the specification documents kept in the
repository (sampling_architecture_full.md, BE_V1_PLAN.md, the Backend
v1.3 completion record, and the v1.2 to v1.3 migration guide).

Millimetre quantities are embedded as rationals; die coordinates are
integers.  The JavaScript comparison Math.sqrt(d2) <= r is embedded as
the exact decidable test 0 <= r and d2 <= r * r, which agrees with it
for every nonnegative radicand.
-/

namespace SamplingWizard

/-- Decides the comparison of a square root with a bound: for d2 >= 0,
sqrtLe d2 r is true exactly when Math.sqrt(d2) <= r. -/
def sqrtLe (d2 r : ℚ) : Bool :=
  decide (0 ≤ r) && decide (d2 ≤ r * r)

/-- A die position on the wafer grid (catalog.ts DiePoint). -/
structure DiePoint where
  die_x : Int
  die_y : Int
deriving DecidableEq, Repr

/-- catalog.ts valid_die_mask.type. -/
inductive MaskType
  | EDGE_EXCLUSION
  | EXPLICIT_LIST
deriving DecidableEq, Repr

/-- catalog.ts WaferMapSpec.origin (the only allowed value is CENTER). -/
inductive Origin
  | CENTER
deriving DecidableEq, Repr

/-- catalog.ts coordinate systems. -/
inductive CoordSystem
  | DIE_GRID
  | MM
  | SHOT
deriving DecidableEq, Repr

/-- catalog.ts WaferMapSpec.valid_die_mask. -/
structure ValidDieMask where
  type : MaskType
  radius_mm : Option ℚ
  valid_die_list : Option (List DiePoint)
deriving DecidableEq, Repr

/-- catalog.ts WaferMapSpec. -/
structure WaferMapSpec where
  wafer_size_mm : ℚ
  die_pitch_x_mm : ℚ
  die_pitch_y_mm : ℚ
  origin : Origin
  notch_orientation_deg : ℚ
  coordinate_system : CoordSystem
  valid_die_mask : ValidDieMask
  version : String
deriving DecidableEq, Repr

/-- catalog.ts Mode. -/
inductive Mode
  | INLINE
  | OFFLINE
  | MONITOR
deriving DecidableEq, Repr

/-- catalog.ts ProcessContext.criticality. -/
inductive Criticality
  | HIGH
  | MEDIUM
  | LOW
deriving DecidableEq, Repr

/-- catalog.ts ProcessContext. -/
structure ProcessContext where
  process_step : String
  measurement_intent : String
  mode : Mode
  criticality : Criticality
  min_sampling_points : Nat
  max_sampling_points : Nat
  allowed_strategy_set : List String
  version : String
deriving DecidableEq, Repr

/-- catalog.ts ToolProfile.recipe_format.type. -/
inductive RecipeFormatType
  | JSON
  | CSV
  | TEXT
deriving DecidableEq, Repr

/-- catalog.ts ToolProfile.recipe_format. -/
structure RecipeFormat where
  type : RecipeFormatType
  version : String
deriving DecidableEq, Repr

/-- catalog.ts ToolProfile. -/
structure ToolProfile where
  tool_type : String
  vendor : String
  model : Option String
  coordinate_system_supported : List CoordSystem
  max_points_per_wafer : Nat
  edge_die_supported : Bool
  ordering_required : Bool
  recipe_format : RecipeFormat
  version : String
deriving DecidableEq, Repr

/-- catalog.ts SamplingOutput.trace. -/
structure Trace where
  strategy_version : String
  generated_at : String
deriving DecidableEq, Repr

/-- catalog.ts SamplingOutput. -/
structure SamplingOutput where
  sampling_strategy_id : String
  selected_points : List DiePoint
  trace : Trace
deriving DecidableEq, Repr

/-- catalog.ts Warning. -/
structure Warning where
  code : String
  message : String
deriving DecidableEq, Repr

/-- catalog.ts SamplingScoreReport. -/
structure SamplingScoreReport where
  coverage_score : ℚ
  statistical_score : ℚ
  risk_alignment_score : ℚ
  overall_score : ℚ
  warnings : List Warning
  version : String
deriving DecidableEq, Repr

/-! ## Wafer grid generation (components/WaferMap model source) -/

/-- A rendered wafer-map cell (Cell type of the WaferMap model source). -/
structure Cell where
  colIndex : Nat
  rowIndex : Nat
  x : Int
  y : Int
  value : Option ℚ
  valid : Bool
  selected : Bool
deriving DecidableEq, Repr

/-- The rendered wafer-map model (WaferMapModel of the same source). -/
structure WaferMapModel where
  width : Nat
  height : Nat
  cells : List Cell
  xRange : Int × Int
  yRange : Int × Int
deriving DecidableEq, Repr

/-- The effective valid radius used by generateWaferGrid: the JavaScript
expression valid_die_mask.radius_mm || (radius - 3) falls through to the
default both when radius_mm is undefined and when it is the falsy 0. -/
def effectiveValidRadius (spec : WaferMapSpec) : ℚ :=
  match spec.valid_die_mask.radius_mm with
  | some r => if r = 0 then spec.wafer_size_mm / 2 - 3 else r
  | none => spec.wafer_size_mm / 2 - 3

/-- One cell of the generated grid, at row r and column c. -/
def gridCell (spec : WaferMapSpec) (selectedSet : List DiePoint)
    (xMin yMax : Int) (r c : Nat) : Cell :=
  let dieY : Int := yMax - r
  let dieX : Int := xMin + c
  let distX : ℚ := dieX * spec.die_pitch_x_mm
  let distY : ℚ := dieY * spec.die_pitch_y_mm
  let validRadius := effectiveValidRadius spec
  { colIndex := c
    rowIndex := r
    x := dieX
    y := dieY
    value := none
    valid := sqrtLe (distX * distX + distY * distY) validRadius
    selected := decide (DiePoint.mk dieX dieY ∈ selectedSet) }

/-- generateWaferGrid of the WaferMap model source: computes the die-index
bounds from the wafer radius and pitches, and emits the cells row by row
from the top-left, marking geometric validity and selection. -/
def generateWaferGrid (spec : WaferMapSpec) (samplingOutput : Option SamplingOutput) :
    WaferMapModel :=
  let radius := spec.wafer_size_mm / 2
  let xMax : Int := ⌊radius / spec.die_pitch_x_mm⌋
  let yMax : Int := ⌊radius / spec.die_pitch_y_mm⌋
  let xMin : Int := -xMax
  let yMin : Int := -yMax
  let width : Nat := (xMax - xMin + 1).toNat
  let height : Nat := (yMax - yMin + 1).toNat
  let selectedSet : List DiePoint :=
    match samplingOutput with
    | some so => so.selected_points
    | none => []
  let cells : List Cell :=
    (List.range height).flatMap fun r =>
      (List.range width).map fun c => gridCell spec selectedSet xMin yMax r c
  { width := width
    height := height
    cells := cells
    xRange := (xMin, xMax)
    yRange := (yMin, yMax) }

/-- The squared distance of the center of a cell from the wafer center,
written as the generator writes it. -/
def cellDist2 (spec : WaferMapSpec) (c : Cell) : ℚ :=
  (c.x * spec.die_pitch_x_mm) * (c.x * spec.die_pitch_x_mm) +
  (c.y * spec.die_pitch_y_mm) * (c.y * spec.die_pitch_y_mm)

/-- The effective radius exactly as the claim words it: the declared mask
radius whenever one is given (even zero), otherwise the wafer radius
shrunk by the 3mm edge-exclusion margin.  Kept apart from
effectiveValidRadius so the two readings can be compared. -/
def claimEffectiveRadius (spec : WaferMapSpec) : ℚ :=
  match spec.valid_die_mask.radius_mm with
  | some r => r
  | none => spec.wafer_size_mm / 2 - 3

/-- A wafer spec whose mask declares the radius 0, exercising the falsy
branch of the radius default. -/
def zeroRadiusSpec : WaferMapSpec :=
  { wafer_size_mm := 20
    die_pitch_x_mm := 5
    die_pitch_y_mm := 5
    origin := Origin.CENTER
    notch_orientation_deg := 270
    coordinate_system := CoordSystem.DIE_GRID
    valid_die_mask := { type := MaskType.EDGE_EXCLUSION, radius_mm := some 0, valid_die_list := none }
    version := "v1" }

/-- A tiny wafer spec with a declared nonzero mask radius, small enough
for the generated grid to be evaluated in proofs. -/
def tinySpec : WaferMapSpec :=
  { wafer_size_mm := 4
    die_pitch_x_mm := 2
    die_pitch_y_mm := 2
    origin := Origin.CENTER
    notch_orientation_deg := 270
    coordinate_system := CoordSystem.DIE_GRID
    valid_die_mask := { type := MaskType.EDGE_EXCLUSION, radius_mm := some 10, valid_die_list := none }
    version := "v1" }

/-- C8 (amended): every cell produced by generateWaferGrid is marked valid
exactly when the distance of its center from the wafer center is at most
the effective valid radius, where the effective radius is the declared
mask radius when a nonzero one is given, and otherwise (radius absent or
declared as the falsy 0) the wafer radius shrunk by the default 3mm
edge-exclusion margin. -/
theorem generateWaferGrid_cell_valid (spec : WaferMapSpec) (so : Option SamplingOutput)
    (cl : Cell) (hc : cl ∈ (generateWaferGrid spec so).cells) :
    cl.valid = sqrtLe (cellDist2 spec cl) (effectiveValidRadius spec) := by
  simp only [generateWaferGrid, List.mem_flatMap, List.mem_map, List.mem_range] at hc
  obtain ⟨r, _, c, _, rfl⟩ := hc
  rfl

/-- Witness for C8: the center cell of the tiny grid, checked concretely. -/
theorem generateWaferGrid_cell_valid_witness :
    (Cell.mk 1 1 0 0 none true false) ∈ (generateWaferGrid tinySpec none).cells ∧
    (Cell.mk 1 1 0 0 none true false).valid =
      sqrtLe (cellDist2 tinySpec (Cell.mk 1 1 0 0 none true false)) (effectiveValidRadius tinySpec) := by
  have hm : (Cell.mk 1 1 0 0 none true false) ∈ (generateWaferGrid tinySpec none).cells := by
    norm_num [generateWaferGrid, gridCell, tinySpec, effectiveValidRadius, sqrtLe, List.range_succ]
    exact ⟨1, by norm_num, 1, by norm_num, by norm_num⟩
  exact ⟨hm, generateWaferGrid_cell_valid tinySpec none _ hm⟩

/-- Counterexample for C8 as stated: with a declared mask radius of 0 the
generator does not use the declared radius (JavaScript treats 0 as falsy
and falls back to the default), so cell validity disagrees with the
declared-radius reading of the claim. -/
theorem generateWaferGrid_zero_radius_counterexample :
    ¬ (∀ cl ∈ (generateWaferGrid zeroRadiusSpec none).cells,
        cl.valid = sqrtLe (cellDist2 zeroRadiusSpec cl) (claimEffectiveRadius zeroRadiusSpec)) := by
  intro h
  have hm : (Cell.mk 3 2 1 0 none true false) ∈ (generateWaferGrid zeroRadiusSpec none).cells := by
    norm_num [generateWaferGrid, gridCell, zeroRadiusSpec, effectiveValidRadius, sqrtLe, List.range_succ]
    exact ⟨2, by norm_num, 3, by norm_num, by norm_num⟩
  have hval := h _ hm
  norm_num [cellDist2, claimEffectiveRadius, zeroRadiusSpec, sqrtLe] at hval

/-! ## Backend strategy configuration (v1.3) -/

/-- Modelled from the spec: the common strategy-configuration section of
Backend v1.3 (the backend config models are not exported; fields and
ranges follow the v1.3 completion record and the migration guide). -/
structure CommonConfig where
  edge_exclusion_mm : Option ℚ
  rotation_seed : Option Nat
  target_point_count : Option Nat
  deterministic_seed : Option Nat
deriving DecidableEq, Repr

/-- CENTER_EDGE radial spacing options. -/
inductive RadialSpacing
  | UNIFORM
  | EXPONENTIAL
deriving DecidableEq, Repr

/-- GRID_UNIFORM grid alignment options. -/
inductive GridAlignment
  | CENTER
  | CORNER
deriving DecidableEq, Repr

/-- ZONE_RING_N allocation modes. -/
inductive AllocationMode
  | AREA_PROPORTIONAL
  | UNIFORM
  | EDGE_HEAVY
deriving DecidableEq, Repr

/-- Modelled from the spec: the per-strategy advanced configuration
payloads of Backend v1.3, as a tagged union (one case per strategy). -/
inductive AdvancedConfig
  | centerEdge (center_weight : ℚ) (ring_count : Nat) (radial_spacing : RadialSpacing)
  | gridUniform (grid_pitch_mm : Option ℚ) (grid_alignment : GridAlignment)
  | edgeOnly (edge_band_width_mm : ℚ) (angular_spacing_deg : ℚ) (prioritize_corners : Bool)
  | zoneRingN (num_rings : Nat) (allocation_mode : AllocationMode)
deriving DecidableEq, Repr

/-- Modelled from the spec: the structured strategy configuration,
common section plus optional strategy-specific advanced section. -/
structure StrategyConfig where
  common : Option CommonConfig
  advanced : Option AdvancedConfig
deriving DecidableEq, Repr

/-- Per-strategy default target point counts of the v1.3 record:
CENTER_EDGE 20, GRID_UNIFORM 30, EDGE_ONLY 15, ZONE_RING_N 25. -/
def strategyDefaultPoints (strategy_id : String) : Nat :=
  if strategy_id = "CENTER_EDGE" then 20
  else if strategy_id = "GRID_UNIFORM" then 30
  else if strategy_id = "EDGE_ONLY" then 15
  else if strategy_id = "ZONE_RING_N" then 25
  else 20

/-- Modelled from the spec: resolve_target_point_count of the backend
config models (backend/src/models/strategy_config.py is not exported).
The formula follows the v1.3 completion record:
max(min, min(requested_or_default, min(max, tool_max))). -/
def resolve_target_point_count (requested : Option Nat) (strategy_id : String)
    (min_sampling_points max_sampling_points tool_max : Nat) : Nat :=
  max min_sampling_points
    (min (requested.getD (strategyDefaultPoints strategy_id))
      (min max_sampling_points tool_max))

/-- Counterexample for C3 as stated: when min_sampling_points exceeds
min(max_sampling_points, tool_max_points), the lower clamp bound wins and
the resolved count lands above the upper cap, outside the (empty)
claimed interval. -/
theorem resolve_target_point_count_counterexample :
    resolve_target_point_count (some 20) "CENTER_EDGE" 50 30 40 = 50 ∧
    ¬ resolve_target_point_count (some 20) "CENTER_EDGE" 50 30 40 ≤ min 30 40 := by
  decide

/-- C3 (amended): target-count resolution computes the clamp
max(min_sampling_points, min(requested_or_default, min(max_sampling_points,
tool_max))); the result is always at least min_sampling_points, lies in
the claimed interval whenever min_sampling_points is at most
min(max_sampling_points, tool_max), and degenerates to
min_sampling_points itself when the lower bound exceeds the cap. -/
theorem resolve_target_point_count_clamped (requested : Option Nat) (strategy_id : String)
    (lo hi tmax : Nat) :
    resolve_target_point_count requested strategy_id lo hi tmax =
      max lo (min (requested.getD (strategyDefaultPoints strategy_id)) (min hi tmax)) ∧
    lo ≤ resolve_target_point_count requested strategy_id lo hi tmax ∧
    (lo ≤ min hi tmax →
      resolve_target_point_count requested strategy_id lo hi tmax ≤ min hi tmax) ∧
    (min hi tmax < lo →
      resolve_target_point_count requested strategy_id lo hi tmax = lo) := by
  refine ⟨rfl, ?_, ?_, ?_⟩ <;> unfold resolve_target_point_count <;> omega

/-- Witness for C3 (amended): a concrete resolution that stays inside the
claimed interval when the interval is nonempty. -/
theorem resolve_target_point_count_clamped_witness :
    resolve_target_point_count none "EDGE_ONLY" 50 70 60 ≤ min 70 60 ∧
    50 ≤ resolve_target_point_count none "EDGE_ONLY" 50 70 60 :=
  ⟨(resolve_target_point_count_clamped none "EDGE_ONLY" 50 70 60).2.2.1 (by decide),
   (resolve_target_point_count_clamped none "EDGE_ONLY" 50 70 60).2.1⟩

/-! ## Backend selection pipeline (L3), modelled from the spec -/

/-- The squared center distance of a die, in millimetres squared. -/
def pointDist2 (w : WaferMapSpec) (p : DiePoint) : ℚ :=
  (p.die_x * w.die_pitch_x_mm) * (p.die_x * w.die_pitch_x_mm) +
  (p.die_y * w.die_pitch_y_mm) * (p.die_y * w.die_pitch_y_mm)

/-- The wafer-relative mask radius: the declared mask radius when present,
otherwise the full wafer radius. -/
def maskRadius (w : WaferMapSpec) : ℚ :=
  (w.valid_die_mask.radius_mm).getD (w.wafer_size_mm / 2)

/-- Modelled from the spec: the radius bucket of a die, one of the three
concentric rings the scoring reference counts — ring 0 within a third of
the mask radius, ring 1 within two thirds, ring 2 beyond. -/
def ringBucket (R d2 : ℚ) : Nat :=
  if sqrtLe d2 (R / 3) then 0
  else if sqrtLe d2 (2 * R / 3) then 1
  else 2

/-- Modelled from the spec: candidate generation walks the die grid inside
the bounding box of the wafer, with the same index bounds the frontend
grid generator derives from the wafer radius and die pitches. -/
def candidateDies (w : WaferMapSpec) : List DiePoint :=
  let xMax : Int := ⌊(w.wafer_size_mm / 2) / w.die_pitch_x_mm⌋
  let yMax : Int := ⌊(w.wafer_size_mm / 2) / w.die_pitch_y_mm⌋
  (List.range (2 * xMax.toNat + 1)).flatMap fun i =>
    (List.range (2 * yMax.toNat + 1)).map fun j =>
      { die_x := (i : Int) - xMax, die_y := (j : Int) - yMax }

/-- Modelled from the spec: mask filtering decides per-candidate validity,
by membership for an explicit die list and otherwise by center distance
against the mask radius shrunk by the edge-exclusion margin. -/
def maskValidDie (w : WaferMapSpec) (edge_exclusion_mm : ℚ) (p : DiePoint) : Bool :=
  match w.valid_die_mask.type, w.valid_die_mask.valid_die_list with
  | MaskType.EXPLICIT_LIST, some l => decide (p ∈ l)
  | _, _ => sqrtLe (pointDist2 w p) (maskRadius w - edge_exclusion_mm)

/-- The atan2 angle class of a die position: angles in (-pi, 0) come
first in ascending atan2 order, then 0 (the positive x axis, with the
origin), then (0, pi), then pi (the negative x axis). -/
def angleClass (p : DiePoint) : Nat :=
  if p.die_y < 0 then 0
  else if p.die_y = 0 ∧ 0 ≤ p.die_x then 1
  else if 0 < p.die_y then 2
  else 3

/-- The planar cross product of two die positions. -/
def cross (p q : DiePoint) : Int :=
  p.die_x * q.die_y - p.die_y * q.die_x

/-- Modelled from the spec: the canonical ordering — radius bucket
ascending, then angle (atan2) ascending, tie-broken by (x, y) ascending.
The atan2 comparison is realized exactly with integer cross products
inside each angle class. -/
def canonicalLE (w : WaferMapSpec) (p q : DiePoint) : Bool :=
  let bp := ringBucket (maskRadius w) (pointDist2 w p)
  let bq := ringBucket (maskRadius w) (pointDist2 w q)
  if bp ≠ bq then decide (bp < bq)
  else if angleClass p ≠ angleClass q then decide (angleClass p < angleClass q)
  else if cross p q ≠ 0 then decide (0 < cross p q)
  else decide (p.die_x < q.die_x ∨ (p.die_x = q.die_x ∧ p.die_y ≤ q.die_y))

/-- Inserts a die into a list sorted by the given comparison. -/
def insertSorted (le : DiePoint → DiePoint → Bool) (p : DiePoint) :
    List DiePoint → List DiePoint
  | [] => [p]
  | q :: rest => if le p q then p :: q :: rest else q :: insertSorted le p rest

/-- Insertion sort by the given comparison. -/
def sortByLE (le : DiePoint → DiePoint → Bool) (l : List DiePoint) : List DiePoint :=
  l.foldr (insertSorted le) []

/-- The edge exclusion requested by a strategy config (default 0). -/
def configEdgeExclusion (cfg : StrategyConfig) : ℚ :=
  (cfg.common.bind CommonConfig.edge_exclusion_mm).getD 0

/-- The target point count requested by a strategy config, when any. -/
def configTargetCount (cfg : StrategyConfig) : Option Nat :=
  cfg.common.bind CommonConfig.target_point_count

/-- The blocking error shape of the API. -/
structure ApiError where
  code : String
  message : String
deriving DecidableEq, Repr

/-- The validation error-code table of the Backend v1.3 completion
record, with the HTTP status each code maps to. -/
def v13ErrorCodeTable : List (String × Nat) :=
  [("INVALID_STRATEGY_CONFIG", 400),
   ("DISALLOWED_STRATEGY", 400),
   ("CANNOT_MEET_MIN_POINTS", 400),
   ("INVALID_WAFER_SPEC", 400),
   ("INVALID_CONSTRAINTS", 400)]

/-- Modelled from the spec: the Select operation (the backend L3 engines
are not exported).  It checks the allowed-strategy set, mask-filters the
candidates, fails with the blocking error of the v1.3 record when fewer
valid dies remain than min_sampling_points, and otherwise takes the
resolved target count of canonically ordered valid dies, warning on
truncation.  The generation timestamp enters only the trace. -/
def select (w : WaferMapSpec) (pc : ProcessContext) (tp : ToolProfile)
    (strategy_id : String) (cfg : StrategyConfig) (now : String) :
    Except ApiError (SamplingOutput × List Warning) :=
  if strategy_id ∈ pc.allowed_strategy_set then
    let valid := (candidateDies w).filter (maskValidDie w (configEdgeExclusion cfg))
    if valid.length < pc.min_sampling_points then
      Except.error
        { code := "CANNOT_MEET_MIN_POINTS"
          message := "Insufficient valid dies for min constraint" }
    else
      let n := resolve_target_point_count (configTargetCount cfg) strategy_id
        pc.min_sampling_points pc.max_sampling_points tp.max_points_per_wafer
      let pts := (sortByLE (canonicalLE w) valid).take n
      let warnings : List Warning :=
        if n < valid.length then
          [{ code := "POINT_COUNT_TRUNCATED"
             message := "Candidate set reduced to the effective target count" }]
        else []
      Except.ok
        ({ sampling_strategy_id := strategy_id
           selected_points := pts
           trace := { strategy_version := "v1.3", generated_at := now } }, warnings)
  else
    Except.error
      { code := "DISALLOWED_STRATEGY"
        message := "Strategy not in allowed_strategy_set" }

/-- Clears the generation timestamp of a Select result, the one field the
determinism contract excludes. -/
def eraseTimestamp (r : Except ApiError (SamplingOutput × List Warning)) :
    Except ApiError (SamplingOutput × List Warning) :=
  match r with
  | Except.ok (o, ws) =>
      Except.ok ({ o with trace := { o.trace with generated_at := "" } }, ws)
  | Except.error e => Except.error e

/-- C2: Select is deterministic — two calls with identical arguments agree
on everything except the generation timestamp of the trace, in particular
on the ordered sequence of selected die coordinates. -/
theorem select_deterministic_modulo_timestamp (w : WaferMapSpec) (pc : ProcessContext)
    (tp : ToolProfile) (strategy_id : String) (cfg : StrategyConfig) (t1 t2 : String) :
    eraseTimestamp (select w pc tp strategy_id cfg t1) =
      eraseTimestamp (select w pc tp strategy_id cfg t2) := by
  unfold select
  dsimp only
  split
  · split <;> rfl
  · rfl

/-- A wafer spec whose explicit valid-die list is empty, so that no valid
die survives mask filtering. -/
def emptyMaskSpec : WaferMapSpec :=
  { wafer_size_mm := 20
    die_pitch_x_mm := 5
    die_pitch_y_mm := 5
    origin := Origin.CENTER
    notch_orientation_deg := 270
    coordinate_system := CoordSystem.DIE_GRID
    valid_die_mask := { type := MaskType.EXPLICIT_LIST, radius_mm := none, valid_die_list := some [] }
    version := "v1" }

/-- A process context with the mock catalog limits (min 10, max 100). -/
def sampleProcess : ProcessContext :=
  { process_step := "lithography"
    measurement_intent := "critical_dimension"
    mode := Mode.INLINE
    criticality := Criticality.MEDIUM
    min_sampling_points := 10
    max_sampling_points := 100
    allowed_strategy_set := ["CENTER_EDGE", "GRID_UNIFORM", "EDGE_ONLY", "ZONE_RING_N"]
    version := "v1" }

/-- A tool profile supporting the die-grid coordinate system. -/
def sampleTool : ToolProfile :=
  { tool_type := "SEM"
    vendor := "ASML"
    model := some "eSEM-1000"
    coordinate_system_supported := [CoordSystem.DIE_GRID, CoordSystem.MM]
    max_points_per_wafer := 50
    edge_die_supported := true
    ordering_required := false
    recipe_format := { type := RecipeFormatType.JSON, version := "1.0" }
    version := "v1" }

/-- The empty strategy configuration (all defaults). -/
def emptyConfig : StrategyConfig :=
  { common := none, advanced := none }

/-- No valid die survives the empty explicit mask. -/
theorem emptyMask_valid_count :
    ((candidateDies emptyMaskSpec).filter
      (maskValidDie emptyMaskSpec (configEdgeExclusion emptyConfig))).length = 0 := by
  norm_num [candidateDies, maskValidDie, emptyMaskSpec, configEdgeExclusion, emptyConfig,
    List.range_succ, List.filter]

/-- Evaluation of Select on the empty-mask fixture. -/
theorem select_emptyMask_eval :
    select emptyMaskSpec sampleProcess sampleTool "CENTER_EDGE" emptyConfig "t0" =
      Except.error
        { code := "CANNOT_MEET_MIN_POINTS"
          message := "Insufficient valid dies for min constraint" } := by
  unfold select
  rw [if_pos (by decide)]
  dsimp only
  rw [if_pos (by rw [emptyMask_valid_count]; decide)]

/-- C6 (amended): when fewer valid dies than min_sampling_points remain
after mask filtering, Select fails with the blocking error code
CANNOT_MEET_MIN_POINTS of the v1.3 taxonomy (HTTP 400) and produces no
sampling output. -/
theorem select_below_min_blocking (w : WaferMapSpec) (pc : ProcessContext) (tp : ToolProfile)
    (strategy_id : String) (cfg : StrategyConfig) (now : String)
    (hallow : strategy_id ∈ pc.allowed_strategy_set)
    (hfew : ((candidateDies w).filter
      (maskValidDie w (configEdgeExclusion cfg))).length < pc.min_sampling_points) :
    select w pc tp strategy_id cfg now =
      Except.error
        { code := "CANNOT_MEET_MIN_POINTS"
          message := "Insufficient valid dies for min constraint" } ∧
    ("CANNOT_MEET_MIN_POINTS", 400) ∈ v13ErrorCodeTable := by
  refine ⟨?_, by decide⟩
  unfold select
  rw [if_pos hallow]
  dsimp only
  rw [if_pos hfew]

/-- Witness for C6 (amended): the empty-mask fixture triggers the
blocking constraint error concretely. -/
theorem select_below_min_blocking_witness :
    select emptyMaskSpec sampleProcess sampleTool "CENTER_EDGE" emptyConfig "t0" =
      Except.error
        { code := "CANNOT_MEET_MIN_POINTS"
          message := "Insufficient valid dies for min constraint" } ∧
    ("CANNOT_MEET_MIN_POINTS", 400) ∈ v13ErrorCodeTable :=
  select_below_min_blocking emptyMaskSpec sampleProcess sampleTool "CENTER_EDGE" emptyConfig "t0"
    (by decide) (by rw [emptyMask_valid_count]; decide)

/-- Counterexample for C6 as stated: the failure carries the code
CANNOT_MEET_MIN_POINTS, not CONSTRAINT_ERROR; the v1.3 error-code table
has no CONSTRAINT_ERROR entry at all. -/
theorem select_error_code_counterexample :
    select emptyMaskSpec sampleProcess sampleTool "CENTER_EDGE" emptyConfig "t0" =
      Except.error
        { code := "CANNOT_MEET_MIN_POINTS"
          message := "Insufficient valid dies for min constraint" } ∧
    "CANNOT_MEET_MIN_POINTS" ≠ "CONSTRAINT_ERROR" ∧
    (∀ e ∈ v13ErrorCodeTable, e.1 ≠ "CONSTRAINT_ERROR") :=
  ⟨select_emptyMask_eval, by decide, by decide⟩

/-! ## Backend score evaluator (L4), modelled from the spec -/

/-- Clamps a score into the unit interval. -/
def clamp01 (q : ℚ) : ℚ := max 0 (min 1 q)

theorem clamp01_nonneg (q : ℚ) : 0 ≤ clamp01 q := le_max_left 0 _

theorem clamp01_le_one (q : ℚ) : clamp01 q ≤ 1 :=
  max_le zero_le_one (min_le_left 1 q)

/-- The distinct radius buckets hit by a point list. -/
def bucketsHit (w : WaferMapSpec) (pts : List DiePoint) : List Nat :=
  (pts.map fun p => ringBucket (maskRadius w) (pointDist2 w p)).dedup

/-- Whether some selected point falls in the outermost ring. -/
def outerRingHit (w : WaferMapSpec) (pts : List DiePoint) : Bool :=
  decide (2 ∈ bucketsHit w pts)

/-- Modelled from the spec: the statistical score is a monotone ramp of
the selected-point count over the process range, reaching 1 at half the
range above the minimum and scaled down toward 0 near the minimum. -/
def statisticalScore (pc : ProcessContext) (n : Nat) : ℚ :=
  clamp01 (((n : ℚ) - pc.min_sampling_points) /
    ((1 / 2) * ((pc.max_sampling_points : ℚ) - pc.min_sampling_points)))

/-- Modelled from the spec: the risk penalty applies when criticality is
HIGH and no selected point falls in the outermost ring. -/
def riskPenalty (pc : ProcessContext) (w : WaferMapSpec) (pts : List DiePoint) : ℚ :=
  if pc.criticality = Criticality.HIGH ∧ outerRingHit w pts = false then 3 / 10 else 0

/-- Modelled from the spec: the Evaluate operation (the backend L4 engine
is not exported).  Coverage counts distinct radius-bucket rings out of 3,
the statistical score ramps over the process range, the risk-alignment
score is 1 minus the HIGH-criticality outer-ring penalty, and the overall
score is the fixed-weight average 2/5, 3/10, 3/10 of the three. -/
def evaluate (w : WaferMapSpec) (pc : ProcessContext) (tp : ToolProfile)
    (sampling_output : SamplingOutput) : SamplingScoreReport :=
  let pts := sampling_output.selected_points
  let coverage := clamp01 (((bucketsHit w pts).length : ℚ) / 3)
  let statistical := statisticalScore pc pts.length
  let risk := 1 - riskPenalty pc w pts
  let overall := 2 / 5 * coverage + 3 / 10 * statistical + 3 / 10 * risk
  let warnings : List Warning :=
    (if pc.criticality = Criticality.HIGH ∧ outerRingHit w pts = false then
      [{ code := "RISK_NO_OUTER_RING"
         message := "HIGH criticality with no outer-ring coverage" }]
    else []) ++
    (if 9 * min pc.max_sampling_points tp.max_points_per_wafer ≤ 10 * pts.length then
      [{ code := "POINT_COUNT_NEAR_LIMIT"
         message := "Point count within margin of the ceiling" }]
    else [])
  { coverage_score := coverage
    statistical_score := statistical
    risk_alignment_score := risk
    overall_score := overall
    warnings := warnings
    version := "l4-v0" }

/-- Modelled from the spec: Evaluate in explicit state-passing form — the
second component is the sampling output as the caller observes it after
the call, which is what the deep-immutability contract constrains. -/
def evaluateS (w : WaferMapSpec) (pc : ProcessContext) (tp : ToolProfile)
    (sampling_output : SamplingOutput) : SamplingScoreReport × SamplingOutput :=
  (evaluate w pc tp sampling_output, sampling_output)

/-- C1: Evaluate leaves its SamplingOutput argument unchanged — the
strategy id, the ordered selected points and the trace are deeply equal
before and after the call. -/
theorem evaluate_preserves_sampling_output (w : WaferMapSpec) (pc : ProcessContext)
    (tp : ToolProfile) (s : SamplingOutput) :
    (evaluateS w pc tp s).2 = s ∧
    (evaluateS w pc tp s).2.selected_points = s.selected_points ∧
    (evaluateS w pc tp s).2.sampling_strategy_id = s.sampling_strategy_id ∧
    (evaluateS w pc tp s).2.trace = s.trace :=
  ⟨rfl, rfl, rfl, rfl⟩

/-- The risk-alignment score lies in the unit interval. -/
theorem riskScore_bounds (pc : ProcessContext) (w : WaferMapSpec) (pts : List DiePoint) :
    0 ≤ 1 - riskPenalty pc w pts ∧ 1 - riskPenalty pc w pts ≤ 1 := by
  unfold riskPenalty
  split <;> norm_num

/-- C4: every score of a ScoreReport produced by Evaluate — coverage,
statistical, risk alignment and overall — lies in the closed interval
from 0 to 1. -/
theorem evaluate_scores_bounded (w : WaferMapSpec) (pc : ProcessContext)
    (tp : ToolProfile) (s : SamplingOutput) :
    (0 ≤ (evaluate w pc tp s).coverage_score ∧ (evaluate w pc tp s).coverage_score ≤ 1) ∧
    (0 ≤ (evaluate w pc tp s).statistical_score ∧ (evaluate w pc tp s).statistical_score ≤ 1) ∧
    (0 ≤ (evaluate w pc tp s).risk_alignment_score ∧
      (evaluate w pc tp s).risk_alignment_score ≤ 1) ∧
    (0 ≤ (evaluate w pc tp s).overall_score ∧ (evaluate w pc tp s).overall_score ≤ 1) := by
  have hc := And.intro (clamp01_nonneg (((bucketsHit w s.selected_points).length : ℚ) / 3))
    (clamp01_le_one (((bucketsHit w s.selected_points).length : ℚ) / 3))
  have hs := And.intro
    (clamp01_nonneg (((s.selected_points.length : ℚ) - pc.min_sampling_points) /
      ((1 / 2) * ((pc.max_sampling_points : ℚ) - pc.min_sampling_points))))
    (clamp01_le_one (((s.selected_points.length : ℚ) - pc.min_sampling_points) /
      ((1 / 2) * ((pc.max_sampling_points : ℚ) - pc.min_sampling_points))))
  have hr := riskScore_bounds pc w s.selected_points
  refine ⟨⟨hc.1, hc.2⟩, ⟨hs.1, hs.2⟩, ⟨hr.1, hr.2⟩, ⟨?_, ?_⟩⟩ <;>
    · show _
      unfold evaluate statisticalScore at *
      dsimp only at *
      nlinarith [hc.1, hc.2, hs.1, hs.2, hr.1, hr.2]

/-! ## Backend recipe translator (L5), modelled from the spec -/

/-- One converted point of the recipe payload: the stable point id, the
physical coordinates, and the originating die coordinates. -/
structure RecipePoint where
  point_id : Nat
  physical_x : ℚ
  physical_y : ℚ
  die_x : Int
  die_y : Int
deriving DecidableEq, Repr

/-- The translation notes recorded when truncation occurs. -/
structure TranslationNotes where
  reason : String
  dropped_count : Nat
  kept_count : Nat
deriving DecidableEq, Repr

/-- The tool recipe produced by the translator, with a structured payload
point list in place of the tool-specific JSON rendering. -/
structure ToolRecipe where
  recipe_id : String
  tool_type : String
  recipe_points : List RecipePoint
  translation_notes : Option TranslationNotes
  recipe_format_version : String
deriving DecidableEq, Repr

/-- Modelled from the spec: coordinate conversion — each kept die becomes
a numbered payload point whose physical coordinate is the die coordinate
times the die pitch, independently per axis, relative to the declared
CENTER origin. -/
def numberPoints (w : WaferMapSpec) : Nat → List DiePoint → List RecipePoint
  | _, [] => []
  | i, p :: rest =>
      { point_id := i
        physical_x := p.die_x * w.die_pitch_x_mm
        physical_y := p.die_y * w.die_pitch_y_mm
        die_x := p.die_x
        die_y := p.die_y } :: numberPoints w (i + 1) rest

/-- The dropped count a recipe reports, zero when no notes are present. -/
def recipeDroppedCount (r : ToolRecipe) : Nat :=
  (r.translation_notes.map TranslationNotes.dropped_count).getD 0

/-- Modelled from the spec: the Translate operation (the backend L5 engine
is not exported).  A coordinate-system mismatch is a blocking error;
otherwise the selection is truncated deterministically to the tool
capacity from the tail, the truncation is recorded in the translation
notes with reason, dropped_count and kept_count, and each kept die is
converted to physical coordinates. -/
def translate (w : WaferMapSpec) (tp : ToolProfile) (s : SamplingOutput)
    (score_report : Option SamplingScoreReport) :
    Except ApiError (ToolRecipe × List Warning) :=
  if w.coordinate_system ∈ tp.coordinate_system_supported then
    let pts := s.selected_points
    let kept := pts.take tp.max_points_per_wafer
    let notes : Option TranslationNotes :=
      if tp.max_points_per_wafer < pts.length then
        some { reason := "TRUNCATED_TO_TOOL_LIMIT"
               dropped_count := pts.length - tp.max_points_per_wafer
               kept_count := tp.max_points_per_wafer }
      else none
    let warnings : List Warning :=
      if tp.max_points_per_wafer < pts.length then
        [{ code := "TRUNCATED_TO_TOOL_LIMIT"
           message := "Selected points exceed the tool capacity" }]
      else []
    Except.ok
      ({ recipe_id := "recipe-" ++ s.sampling_strategy_id
         tool_type := tp.tool_type
         recipe_points := numberPoints w 0 kept
         translation_notes := notes
         recipe_format_version := tp.recipe_format.version }, warnings)
  else
    Except.error
      { code := "UNSUPPORTED_COORDINATE_SYSTEM"
        message := "Tool does not support the wafer coordinate system" }

/-- C5: point-set conservation of Translate — when truncation occurs the
notes satisfy kept_count + dropped_count = number of selected points, and
when the selection fits the tool capacity the dropped count is zero. -/
theorem translate_point_conservation (w : WaferMapSpec) (tp : ToolProfile)
    (s : SamplingOutput) (sr : Option SamplingScoreReport) (rec : ToolRecipe)
    (ws : List Warning) (h : translate w tp s sr = Except.ok (rec, ws)) :
    (∀ n, rec.translation_notes = some n →
      n.kept_count + n.dropped_count = s.selected_points.length) ∧
    (s.selected_points.length ≤ tp.max_points_per_wafer → recipeDroppedCount rec = 0) := by
  unfold translate at h
  split at h
  · dsimp only at h
    rw [Except.ok.injEq, Prod.mk.injEq] at h
    obtain ⟨hrec, -⟩ := h
    subst hrec
    by_cases hlen : tp.max_points_per_wafer < s.selected_points.length
    · rw [if_pos hlen]
      constructor
      · intro n hn
        rw [Option.some.injEq] at hn
        subst hn
        dsimp only
        omega
      · intro hle
        omega
    · rw [if_neg hlen]
      exact ⟨fun n hn => by simp at hn, fun _ => rfl⟩
  · exact absurd h (by simp)

/-- A three-point sampling output used to exercise translation. -/
def sampleOutput3 : SamplingOutput :=
  { sampling_strategy_id := "CENTER_EDGE"
    selected_points := [⟨0, 0⟩, ⟨1, 0⟩, ⟨0, 1⟩]
    trace := { strategy_version := "v1.3", generated_at := "2026-01-08T00:00:00Z" } }

/-- A tool profile holding at most two points per wafer. -/
def smallTool : ToolProfile :=
  { tool_type := "AFM"
    vendor := "Bruker"
    model := some "Dimension-FastScan"
    coordinate_system_supported := [CoordSystem.DIE_GRID]
    max_points_per_wafer := 2
    edge_die_supported := true
    ordering_required := false
    recipe_format := { type := RecipeFormatType.JSON, version := "1.0" }
    version := "v1" }

/-- The recipe the translator produces on the three-point fixture. -/
def truncatedRecipe : ToolRecipe :=
  { recipe_id := "recipe-CENTER_EDGE"
    tool_type := "AFM"
    recipe_points := numberPoints tinySpec 0 [⟨0, 0⟩, ⟨1, 0⟩]
    translation_notes := some { reason := "TRUNCATED_TO_TOOL_LIMIT", dropped_count := 1, kept_count := 2 }
    recipe_format_version := "1.0" }

/-- Evaluation of Translate on the three-point fixture: one point drops. -/
theorem translate_sampleOutput3_eval :
    translate tinySpec smallTool sampleOutput3 none =
      Except.ok (truncatedRecipe,
        [{ code := "TRUNCATED_TO_TOOL_LIMIT"
           message := "Selected points exceed the tool capacity" }]) := rfl

/-- Witness for C5: the three-point fixture against the two-point tool,
with the conservation equations read back concretely. -/
theorem translate_point_conservation_witness :
    (∀ n, truncatedRecipe.translation_notes = some n →
      n.kept_count + n.dropped_count = sampleOutput3.selected_points.length) ∧
    (sampleOutput3.selected_points.length ≤ smallTool.max_points_per_wafer →
      recipeDroppedCount truncatedRecipe = 0) :=
  translate_point_conservation tinySpec smallTool sampleOutput3 none truncatedRecipe
    [{ code := "TRUNCATED_TO_TOOL_LIMIT"
       message := "Selected points exceed the tool capacity" }] (by rfl)

/-- Every payload point produced by numberPoints carries the per-axis
pitch conversion of a die of the input list. -/
theorem numberPoints_spec (w : WaferMapSpec) (l : List DiePoint) (i : Nat) (q : RecipePoint)
    (hq : q ∈ numberPoints w i l) :
    q.physical_x = q.die_x * w.die_pitch_x_mm ∧
    q.physical_y = q.die_y * w.die_pitch_y_mm ∧
    DiePoint.mk q.die_x q.die_y ∈ l := by
  induction l generalizing i with
  | nil => cases hq
  | cons p rest ih =>
      rw [numberPoints, List.mem_cons] at hq
      rcases hq with hq | hq
      · subst hq
        exact ⟨rfl, rfl, List.mem_cons_self _ _⟩
      · obtain ⟨h1, h2, h3⟩ := ih (i + 1) hq
        exact ⟨h1, h2, List.mem_cons_of_mem _ h3⟩

/-- C7: every payload point emitted by Translate has physical coordinates
equal to its originating die coordinates times the die pitch, computed
independently per axis, and originates from a selected point. -/
theorem translate_physical_coordinates (w : WaferMapSpec) (tp : ToolProfile)
    (s : SamplingOutput) (sr : Option SamplingScoreReport) (rec : ToolRecipe)
    (ws : List Warning) (h : translate w tp s sr = Except.ok (rec, ws))
    (q : RecipePoint) (hq : q ∈ rec.recipe_points) :
    q.physical_x = q.die_x * w.die_pitch_x_mm ∧
    q.physical_y = q.die_y * w.die_pitch_y_mm ∧
    DiePoint.mk q.die_x q.die_y ∈ s.selected_points := by
  unfold translate at h
  split at h
  · dsimp only at h
    rw [Except.ok.injEq, Prod.mk.injEq] at h
    obtain ⟨hrec, -⟩ := h
    subst hrec
    dsimp only at hq
    obtain ⟨h1, h2, h3⟩ := numberPoints_spec w _ 0 q hq
    exact ⟨h1, h2, List.take_subset _ _ h3⟩
  · exact absurd h (by simp)

/-- Witness for C7: the first payload point of the fixture recipe,
converted at pitch 2 from die (0, 0). -/
theorem translate_physical_coordinates_witness :
    (RecipePoint.mk 0 0 0 0 0).physical_x =
      (RecipePoint.mk 0 0 0 0 0).die_x * tinySpec.die_pitch_x_mm ∧
    (RecipePoint.mk 0 0 0 0 0).physical_y =
      (RecipePoint.mk 0 0 0 0 0).die_y * tinySpec.die_pitch_y_mm ∧
    DiePoint.mk (RecipePoint.mk 0 0 0 0 0).die_x (RecipePoint.mk 0 0 0 0 0).die_y ∈
      sampleOutput3.selected_points :=
  translate_physical_coordinates tinySpec smallTool sampleOutput3 none truncatedRecipe
    [{ code := "TRUNCATED_TO_TOOL_LIMIT"
       message := "Selected points exceed the tool capacity" }] (by rfl)
    (RecipePoint.mk 0 0 0 0 0)
    (by norm_num [truncatedRecipe, numberPoints, tinySpec])

/-! ## Frontend catalog API client (frontend/src/api/catalog.ts) -/

namespace Catalog

/-- catalog.ts TechListResponse. -/
structure TechListResponse where
  techs : List String
deriving DecidableEq, Repr

/-- catalog.ts ProcessOption. -/
structure ProcessOption where
  process_step : String
  intents : List String
  modes : List Mode
deriving DecidableEq, Repr

/-- catalog.ts ProcessOptionsResponse. -/
structure ProcessOptionsResponse where
  process_options : List ProcessOption
deriving DecidableEq, Repr

/-- catalog.ts WaferMapSummary. -/
structure WaferMapSummary where
  wafer_map_id : String
  tech : String
  description : String
deriving DecidableEq, Repr

/-- catalog.ts WaferMapListResponse. -/
structure WaferMapListResponse where
  wafer_maps : List WaferMapSummary
deriving DecidableEq, Repr

/-- catalog.ts ProcessContextResponse. -/
structure ProcessContextResponse where
  process_context : ProcessContext
deriving DecidableEq, Repr

/-- catalog.ts ToolOption. -/
structure ToolOption where
  tool_type : String
  vendor : String
  model : Option String
deriving DecidableEq, Repr

/-- catalog.ts ToolOptionsResponse. -/
structure ToolOptionsResponse where
  tool_options : List ToolOption
deriving DecidableEq, Repr

/-- catalog.ts ToolProfileResponse. -/
structure ToolProfileResponse where
  tool_profile : ToolProfile
deriving DecidableEq, Repr

/-- catalog.ts common strategy-config section of a preview request. -/
structure FECommonConfig where
  edge_exclusion_mm : Option ℚ
  target_point_count : Option Nat
  rotation_seed : Option Nat
deriving DecidableEq, Repr

/-- catalog.ts strategy_config of a preview request; the loosely typed
advanced payload is embedded as a key-value list. -/
structure FEStrategyConfig where
  common : Option FECommonConfig
  advanced : Option (List (String × String))
deriving DecidableEq, Repr

/-- catalog.ts strategy reference of a preview request. -/
structure StrategyRef where
  strategy_id : String
  strategy_config : Option FEStrategyConfig
deriving DecidableEq, Repr

/-- catalog.ts SamplingPreviewRequest. -/
structure SamplingPreviewRequest where
  wafer_map_spec : WaferMapSpec
  process_context : ProcessContext
  tool_profile : ToolProfile
  strategy : StrategyRef
deriving DecidableEq, Repr

/-- catalog.ts SamplingPreviewResponse. -/
structure SamplingPreviewResponse where
  sampling_output : SamplingOutput
  warnings : List Warning
deriving DecidableEq, Repr

/-- catalog.ts SamplingScoreRequest. -/
structure SamplingScoreRequest where
  wafer_map_spec : WaferMapSpec
  process_context : ProcessContext
  tool_profile : ToolProfile
  sampling_output : SamplingOutput
deriving DecidableEq, Repr

/-- catalog.ts SamplingScoreResponse. -/
structure SamplingScoreResponse where
  score_report : SamplingScoreReport
deriving DecidableEq, Repr

/-- catalog.ts ToolRecipe; the tool-specific JSON payload is embedded as
a key-value list. -/
structure ToolRecipe where
  recipe_id : String
  tool_type : String
  recipe_payload : List (String × String)
  translation_notes : Option (List String)
  recipe_format_version : String
deriving DecidableEq, Repr

/-- catalog.ts GenerateRecipeRequest. -/
structure GenerateRecipeRequest where
  wafer_map_spec : WaferMapSpec
  tool_profile : ToolProfile
  sampling_output : SamplingOutput
  score_report : Option SamplingScoreReport
deriving DecidableEq, Repr

/-- catalog.ts GenerateRecipeResponse. -/
structure GenerateRecipeResponse where
  tool_recipe : ToolRecipe
  warnings : List Warning
deriving DecidableEq, Repr

/-- The observable outcome of one fetch call: the promise rejects, the
response arrives with a non-ok status (with the optional error.message of
the error body), or the response arrives ok with a parsed body. -/
inductive FetchOutcome (α : Type)
  | networkFailure (message : String)
  | httpError (status : Nat) (errorMessage : Option String)
  | success (body : α)

/-- fetchAPI of catalog.ts: a non-ok status becomes a thrown error built
from the status and the error body, a rejected fetch is rethrown, and an
ok response resolves with its body. -/
def fetchAPI {α : Type} (r : FetchOutcome α) : Except String α :=
  match r with
  | FetchOutcome.networkFailure m => Except.error m
  | FetchOutcome.httpError status m =>
      Except.error ("HTTP error! status: " ++ toString status ++ " - " ++
        m.getD "No error message")
  | FetchOutcome.success body => Except.ok body

/-- The development mock data of catalog.ts (MOCK_DATA). -/
structure MockData where
  techs : List String
  waferMaps : List WaferMapSummary
  processOptions : List ProcessOption
  toolOptions : List ToolOption
deriving DecidableEq, Repr

/-- MOCK_DATA of catalog.ts. -/
def MOCK_DATA : MockData :=
  { techs := ["28nm", "22nm", "16nm", "14nm", "10nm", "7nm", "5nm", "3nm"]
    waferMaps :=
      [{ wafer_map_id := "standard_300mm", tech := "28nm", description := "Standard 300mm wafer layout" },
       { wafer_map_id := "high_density_300mm", tech := "28nm", description := "High density 300mm layout" },
       { wafer_map_id := "test_200mm", tech := "28nm", description := "Test 200mm wafer layout" }]
    processOptions :=
      [{ process_step := "lithography", intents := ["critical_dimension", "overlay"],
         modes := [Mode.INLINE, Mode.OFFLINE] },
       { process_step := "etch", intents := ["depth", "uniformity"],
         modes := [Mode.INLINE, Mode.MONITOR] },
       { process_step := "metal", intents := ["resistance", "thickness"],
         modes := [Mode.OFFLINE, Mode.MONITOR] }]
    toolOptions :=
      [{ tool_type := "SEM", vendor := "ASML", model := some "eSEM-1000" },
       { tool_type := "AFM", vendor := "Bruker", model := some "Dimension-FastScan" },
       { tool_type := "Optical", vendor := "KLA", model := some "Archer-750" }] }

/-- listTechs of catalog.ts: any failure falls back to the mock techs. -/
def listTechs (r : FetchOutcome TechListResponse) : Except String TechListResponse :=
  match fetchAPI r with
  | Except.ok v => Except.ok v
  | Except.error _ => Except.ok { techs := MOCK_DATA.techs }

/-- listProcessOptions of catalog.ts: any failure falls back to the mock
process options.  The tech parameter only shapes the request URL. -/
def listProcessOptions (tech : String) (r : FetchOutcome ProcessOptionsResponse) :
    Except String ProcessOptionsResponse :=
  match fetchAPI r with
  | Except.ok v => Except.ok v
  | Except.error _ => Except.ok { process_options := MOCK_DATA.processOptions }

/-- listWaferMaps of catalog.ts: any failure falls back to the mock wafer
maps. -/
def listWaferMaps (tech : String) (r : FetchOutcome WaferMapListResponse) :
    Except String WaferMapListResponse :=
  match fetchAPI r with
  | Except.ok v => Except.ok v
  | Except.error _ => Except.ok { wafer_maps := MOCK_DATA.waferMaps }

/-- The query parameters of getProcessContext. -/
structure ProcessContextParams where
  tech : String
  step : String
  intent : String
  mode : Mode
deriving DecidableEq, Repr

/-- The mock process context getProcessContext builds from its params. -/
def mockProcessContext (params : ProcessContextParams) : ProcessContext :=
  { process_step := params.step
    measurement_intent := params.intent
    mode := params.mode
    criticality := Criticality.MEDIUM
    min_sampling_points := 10
    max_sampling_points := 100
    allowed_strategy_set := ["CENTER_EDGE", "RANDOM_UNIFORM", "GRID"]
    version := "mock-v1" }

/-- getProcessContext of catalog.ts: any failure falls back to a mock
context built from the parameters. -/
def getProcessContext (params : ProcessContextParams)
    (r : FetchOutcome ProcessContextResponse) : Except String ProcessContextResponse :=
  match fetchAPI r with
  | Except.ok v => Except.ok v
  | Except.error _ => Except.ok { process_context := mockProcessContext params }

/-- The query parameters of listToolOptions. -/
structure ToolOptionsParams where
  tech : String
  step : String
  intent : String
deriving DecidableEq, Repr

/-- listToolOptions of catalog.ts: any failure falls back to the mock tool
options. -/
def listToolOptions (params : ToolOptionsParams) (r : FetchOutcome ToolOptionsResponse) :
    Except String ToolOptionsResponse :=
  match fetchAPI r with
  | Except.ok v => Except.ok v
  | Except.error _ => Except.ok { tool_options := MOCK_DATA.toolOptions }

/-- The mock tool profile getToolProfile builds from the tool type. -/
def mockToolProfile (toolType : String) : ToolProfile :=
  { tool_type := toolType
    vendor := "MockVendor"
    model := some "MockModel-1000"
    coordinate_system_supported := [CoordSystem.DIE_GRID, CoordSystem.MM]
    max_points_per_wafer := 1000
    edge_die_supported := true
    ordering_required := false
    recipe_format := { type := RecipeFormatType.JSON, version := "1.0" }
    version := "mock-v1" }

/-- getToolProfile of catalog.ts: any failure falls back to a mock
profile built from the tool type. -/
def getToolProfile (toolType : String) (r : FetchOutcome ToolProfileResponse) :
    Except String ToolProfileResponse :=
  match fetchAPI r with
  | Except.ok v => Except.ok v
  | Except.error _ => Except.ok { tool_profile := mockToolProfile toolType }

/-- previewSampling of catalog.ts: a bare fetchAPI call with no catch, so
failures propagate to the caller. -/
def previewSampling (requestBody : SamplingPreviewRequest)
    (r : FetchOutcome SamplingPreviewResponse) : Except String SamplingPreviewResponse :=
  fetchAPI r

/-- scoreSampling of catalog.ts: a bare fetchAPI call with no catch. -/
def scoreSampling (requestBody : SamplingScoreRequest)
    (r : FetchOutcome SamplingScoreResponse) : Except String SamplingScoreResponse :=
  fetchAPI r

/-- generateRecipe of catalog.ts: a bare fetchAPI call with no catch. -/
def generateRecipe (requestBody : GenerateRecipeRequest)
    (r : FetchOutcome GenerateRecipeResponse) : Except String GenerateRecipeResponse :=
  fetchAPI r

end Catalog

/-- Whether an Except value is a success. -/
def exceptIsOk {ε α : Type} : Except ε α → Bool
  | Except.ok _ => true
  | Except.error _ => false

/-- C10: every catalog GET helper never rejects — on any failure outcome
it resolves with the built-in mock data — while the three POST
operations are bare fetchAPI calls whose failures reach the caller as
errors. -/
theorem catalog_get_never_rejects_post_propagates :
    (∀ r, exceptIsOk (Catalog.listTechs r) = true) ∧
    (∀ tech r, exceptIsOk (Catalog.listWaferMaps tech r) = true) ∧
    (∀ tech r, exceptIsOk (Catalog.listProcessOptions tech r) = true) ∧
    (∀ p r, exceptIsOk (Catalog.getProcessContext p r) = true) ∧
    (∀ p r, exceptIsOk (Catalog.listToolOptions p r) = true) ∧
    (∀ t r, exceptIsOk (Catalog.getToolProfile t r) = true) ∧
    (∀ s m, Catalog.listTechs (Catalog.FetchOutcome.httpError s m) =
      Except.ok { techs := Catalog.MOCK_DATA.techs }) ∧
    (∀ msg, Catalog.listTechs (Catalog.FetchOutcome.networkFailure msg) =
      Except.ok { techs := Catalog.MOCK_DATA.techs }) ∧
    (∀ tech s m, Catalog.listWaferMaps tech (Catalog.FetchOutcome.httpError s m) =
      Except.ok { wafer_maps := Catalog.MOCK_DATA.waferMaps }) ∧
    (∀ tech msg, Catalog.listWaferMaps tech (Catalog.FetchOutcome.networkFailure msg) =
      Except.ok { wafer_maps := Catalog.MOCK_DATA.waferMaps }) ∧
    (∀ tech s m, Catalog.listProcessOptions tech (Catalog.FetchOutcome.httpError s m) =
      Except.ok { process_options := Catalog.MOCK_DATA.processOptions }) ∧
    (∀ tech msg, Catalog.listProcessOptions tech (Catalog.FetchOutcome.networkFailure msg) =
      Except.ok { process_options := Catalog.MOCK_DATA.processOptions }) ∧
    (∀ p s m, Catalog.getProcessContext p (Catalog.FetchOutcome.httpError s m) =
      Except.ok { process_context := Catalog.mockProcessContext p }) ∧
    (∀ p msg, Catalog.getProcessContext p (Catalog.FetchOutcome.networkFailure msg) =
      Except.ok { process_context := Catalog.mockProcessContext p }) ∧
    (∀ p s m, Catalog.listToolOptions p (Catalog.FetchOutcome.httpError s m) =
      Except.ok { tool_options := Catalog.MOCK_DATA.toolOptions }) ∧
    (∀ p msg, Catalog.listToolOptions p (Catalog.FetchOutcome.networkFailure msg) =
      Except.ok { tool_options := Catalog.MOCK_DATA.toolOptions }) ∧
    (∀ t s m, Catalog.getToolProfile t (Catalog.FetchOutcome.httpError s m) =
      Except.ok { tool_profile := Catalog.mockToolProfile t }) ∧
    (∀ t msg, Catalog.getToolProfile t (Catalog.FetchOutcome.networkFailure msg) =
      Except.ok { tool_profile := Catalog.mockToolProfile t }) ∧
    (∀ b r, Catalog.previewSampling b r = Catalog.fetchAPI r) ∧
    (∀ b r, Catalog.scoreSampling b r = Catalog.fetchAPI r) ∧
    (∀ b r, Catalog.generateRecipe b r = Catalog.fetchAPI r) ∧
    (∀ (α : Type) (msg : String),
      exceptIsOk (Catalog.fetchAPI (α := α) (Catalog.FetchOutcome.networkFailure msg)) = false) ∧
    (∀ (α : Type) (s : Nat) (m : Option String),
      exceptIsOk (Catalog.fetchAPI (α := α) (Catalog.FetchOutcome.httpError s m)) = false) := by
  refine ⟨?_, ?_, ?_, ?_, ?_, ?_, ?_, ?_, ?_, ?_, ?_, ?_, ?_, ?_, ?_, ?_, ?_, ?_, ?_, ?_, ?_,
    ?_, ?_⟩ <;>
    intros <;>
    first
      | rfl
      | (rename_i r; cases r <;> rfl)

/-! ## Wizard state reducer (frontend/src/context/WizardContext.tsx) -/

namespace Wizard

/-- WizardState.inputs.processContext. -/
structure ProcessContextInputs where
  processStep : Option String
  measurementIntent : Option String
  mode : Option String
deriving DecidableEq, Repr

/-- WizardState.inputs.tool. -/
structure ToolInputs where
  toolType : Option String
  vendor : Option String
  model : Option String
deriving DecidableEq, Repr

/-- The common section of the strategy config kept in wizard inputs. -/
structure FECommonConfig where
  edge_exclusion_mm : Option ℚ
  target_point_count : Option Nat
  rotation_seed : Option Nat
deriving DecidableEq, Repr

/-- The strategy config kept in wizard inputs (common plus the loosely
typed specific payload, embedded as a key-value list). -/
structure FEStrategyConfig where
  common : Option FECommonConfig
  specific : Option (List (String × String))
deriving DecidableEq, Repr

/-- WizardState.inputs.strategy. -/
structure StrategyInputs where
  strategyId : Option String
  strategy_config : Option FEStrategyConfig
deriving DecidableEq, Repr

/-- WizardState.inputs. -/
structure WizardInputs where
  tech : Option String
  waferMapId : Option String
  processContext : ProcessContextInputs
  tool : ToolInputs
  strategy : StrategyInputs
deriving DecidableEq, Repr

/-- WizardState.derived. -/
structure WizardDerived where
  waferMapSpec : Option WaferMapSpec
  processContext : Option ProcessContext
  toolProfile : Option ToolProfile
deriving DecidableEq, Repr

/-- WizardState.outputs. -/
structure WizardOutputs where
  samplingOutput : Option SamplingOutput
  previewWarnings : List Warning
  scoreReport : Option SamplingScoreReport
  toolRecipe : Option Catalog.ToolRecipe
deriving DecidableEq, Repr

/-- WizardState of WizardContext.tsx. -/
structure WizardState where
  currentStep : Int
  inputs : WizardInputs
  derived : WizardDerived
  outputs : WizardOutputs
  isLoading : Bool
  error : Option String
deriving DecidableEq, Repr

/-- initialState of WizardContext.tsx. -/
def initialState : WizardState :=
  { currentStep := 1
    inputs :=
      { tech := none
        waferMapId := none
        processContext := { processStep := none, measurementIntent := none, mode := none }
        tool := { toolType := none, vendor := none, model := none }
        strategy :=
          { strategyId := none
            strategy_config := some
              { common := some
                  { edge_exclusion_mm := some 5
                    target_point_count := some 100
                    rotation_seed := some 0 }
                specific := none } } }
    derived := { waferMapSpec := none, processContext := none, toolProfile := none }
    outputs :=
      { samplingOutput := none
        previewWarnings := []
        scoreReport := none
        toolRecipe := none }
    isLoading := false
    error := none }

/-- The SET_STRATEGY_PARAMS payload: the handful of common fields the
wizard spreads into strategy_config.common; an absent field models an
absent key. -/
structure StrategyParamsPayload where
  edge_exclusion_mm : Option ℚ
  target_point_count : Option Nat
  rotation_seed : Option Nat
deriving DecidableEq, Repr

/-- The action union of WizardContext.tsx. -/
inductive Action
  | GO_TO_NEXT_STEP
  | GO_TO_PREVIOUS_STEP
  | SET_TECH (payload : String)
  | SET_WAFER_MAP (id : String) (spec : WaferMapSpec)
  | SET_PROCESS_CONTEXT (inputs : ProcessContextInputs) (derived : ProcessContext)
  | SET_TOOL_PROFILE (inputs : ToolInputs) (derived : ToolProfile)
  | SET_STRATEGY (payload : String)
  | SET_STRATEGY_PARAMS (payload : StrategyParamsPayload)
  | SET_PREVIEW_OUTPUT (samplingOutput : SamplingOutput) (warnings : List Warning)
  | SET_SCORE_REPORT (payload : SamplingScoreReport)
  | SET_RECIPE_OUTPUT (payload : Catalog.ToolRecipe)
  | SET_LOADING (payload : Bool)
  | SET_ERROR (payload : Option String)
deriving DecidableEq, Repr

/-- wizardReducer of WizardContext.tsx, case by case.  In
SET_STRATEGY_PARAMS the JavaScript object spread of the payload over the
previous common section is embedded with orElse: a present payload key
overrides, an absent one keeps the previous value. -/
def wizardReducer (state : WizardState) (action : Action) : WizardState :=
  match action with
  | Action.GO_TO_NEXT_STEP => { state with currentStep := state.currentStep + 1 }
  | Action.GO_TO_PREVIOUS_STEP => { state with currentStep := state.currentStep - 1 }
  | Action.SET_TECH payload =>
      { initialState with
        currentStep := state.currentStep
        inputs := { initialState.inputs with tech := some payload } }
  | Action.SET_WAFER_MAP id spec =>
      { state with
        inputs := { state.inputs with waferMapId := some id }
        derived := { state.derived with waferMapSpec := some spec } }
  | Action.SET_PROCESS_CONTEXT inputs derived =>
      { state with
        inputs := { state.inputs with processContext := inputs }
        derived := { state.derived with processContext := some derived } }
  | Action.SET_TOOL_PROFILE inputs derived =>
      { state with
        inputs := { state.inputs with tool := inputs }
        derived := { state.derived with toolProfile := some derived } }
  | Action.SET_STRATEGY payload =>
      { state with
        inputs :=
          { state.inputs with
            strategy :=
              { strategyId := some payload
                strategy_config := some
                  { common := some
                      { edge_exclusion_mm := some 5
                        target_point_count := some 100
                        rotation_seed := some 0 }
                    specific := none } } } }
  | Action.SET_STRATEGY_PARAMS payload =>
      let prevCfg := (state.inputs.strategy.strategy_config).getD { common := none, specific := none }
      let prevCommon := prevCfg.common.getD
        { edge_exclusion_mm := none, target_point_count := none, rotation_seed := none }
      { state with
        inputs :=
          { state.inputs with
            strategy :=
              { state.inputs.strategy with
                strategy_config := some
                  { prevCfg with
                    common := some
                      { edge_exclusion_mm :=
                          (payload.edge_exclusion_mm).orElse fun _ => prevCommon.edge_exclusion_mm
                        target_point_count :=
                          (payload.target_point_count).orElse fun _ => prevCommon.target_point_count
                        rotation_seed :=
                          (payload.rotation_seed).orElse fun _ => prevCommon.rotation_seed } } } } }
  | Action.SET_PREVIEW_OUTPUT samplingOutput warnings =>
      { state with
        outputs :=
          { state.outputs with
            samplingOutput := some samplingOutput
            previewWarnings := warnings
            scoreReport := none
            toolRecipe := none } }
  | Action.SET_SCORE_REPORT payload =>
      { state with
        outputs :=
          { state.outputs with
            scoreReport := some payload
            toolRecipe := none } }
  | Action.SET_RECIPE_OUTPUT payload =>
      { state with outputs := { state.outputs with toolRecipe := some payload } }
  | Action.SET_LOADING payload => { state with isLoading := payload }
  | Action.SET_ERROR payload => { state with error := payload, isLoading := false }

/-- Counterexample for C9 as stated: SET_TECH does not reset every field
except currentStep to the initial state — it stores the new tech in the
inputs, so the result differs from the initial state with the step kept. -/
theorem wizardReducer_set_tech_counterexample :
    wizardReducer initialState (Action.SET_TECH "28nm") ≠
      { initialState with currentStep := initialState.currentStep } := by
  intro h
  have htech := congrArg (fun st => st.inputs.tech) h
  simp [wizardReducer, initialState] at htech

/-- C9 (amended): SET_PREVIEW_OUTPUT stores the new output and warnings
and clears the score report and recipe; SET_SCORE_REPORT stores the
report and clears the recipe; SET_TECH resets every field except
currentStep — and the tech input, which receives the payload — to the
initial state; SET_PROCESS_CONTEXT and SET_TOOL_PROFILE leave the whole
outputs field unchanged. -/
theorem wizardReducer_frame (s : WizardState) (t : String) (out : SamplingOutput)
    (ws : List Warning) (r : SamplingScoreReport) (pci : ProcessContextInputs)
    (pcd : ProcessContext) (ti : ToolInputs) (tpd : ToolProfile) :
    (wizardReducer s (Action.SET_PREVIEW_OUTPUT out ws)).outputs =
      { samplingOutput := some out, previewWarnings := ws,
        scoreReport := none, toolRecipe := none } ∧
    (wizardReducer s (Action.SET_SCORE_REPORT r)).outputs =
      { s.outputs with scoreReport := some r, toolRecipe := none } ∧
    wizardReducer s (Action.SET_TECH t) =
      { initialState with
        currentStep := s.currentStep
        inputs := { initialState.inputs with tech := some t } } ∧
    (wizardReducer s (Action.SET_PROCESS_CONTEXT pci pcd)).outputs = s.outputs ∧
    (wizardReducer s (Action.SET_TOOL_PROFILE ti tpd)).outputs = s.outputs :=
  ⟨rfl, rfl, rfl, rfl, rfl⟩

end Wizard

end SamplingWizard
